import Mathlib

/-!
Shallow embedding of the data-reconciliation and filter layer of
monero-javascript (src/main/js/common/MoneroUtils.js: class MoneroUtils and
class MoneroTxFilter), together with theorems settling the specification
claims about it.

JavaScript `undefined` is modelled as `Option.none`; a field holding a value
`v` is `some v`.  The candidate/template transaction type `MoneroTxWallet`
carries exactly the fields the source code under scrutiny reads; it is
polymorphic in the transfer type `T` because the nested transfer entities and
the nested `MoneroTransferFilter` are opaque to this file (the filter only
ever applies the nested filter's `meetsCriteria`, modelled as a boolean
predicate `T → Bool`).
-/

/-- Block header as read by `MoneroTxFilter.meetsCriteria`:
`tx.getBlock().getHeader().getHeight()`. -/
structure MoneroBlockHeader where
  height : Option Nat
deriving DecidableEq, Repr

/-- Block as read by `MoneroTxFilter.meetsCriteria`: `block.getHeader()`. -/
structure MoneroBlock where
  header : Option MoneroBlockHeader
deriving DecidableEq, Repr

/-- The wallet transaction entity, restricted to the fields the source reads:
the eight scalar fields compared by the template clause of
`MoneroTxFilter.meetsCriteria`, the transfers and block read by the other
clauses, and the `hash` read by `MoneroUtils.mergeTx`. -/
structure MoneroTxWallet (T : Type) where
  id : Option String := none
  paymentId : Option String := none
  isConfirmed : Option Bool := none
  inTxPool : Option Bool := none
  doNotRelay : Option Bool := none
  isRelayed : Option Bool := none
  isFailed : Option Bool := none
  isCoinbase : Option Bool := none
  outgoingTransfer : Option T := none
  incomingTransfers : Option (List T) := none
  block : Option MoneroBlock := none
  hash : Option String := none
deriving DecidableEq

namespace MoneroUtils

/-- `MoneroUtils.paymentIdsEqual(paymentId1, paymentId2)`: loop `i` from `0`
to `max(len1, len2) - 1`; return `false` as soon as a shared position differs,
or a position past the end of one string is not `'0'` in the other; else
return `true`.  Strings are embedded as their character lists. -/
def paymentIdsEqual (paymentId1 paymentId2 : List Char) : Bool :=
  (List.range (max paymentId1.length paymentId2.length)).all fun i =>
    if i < paymentId1.length ∧ i < paymentId2.length ∧
        paymentId1.getD i ' ' ≠ paymentId2.getD i ' ' then false
    else if paymentId1.length ≤ i ∧ paymentId2.getD i ' ' ≠ '0' then false
    else if paymentId2.length ≤ i ∧ paymentId1.getD i ' ' ≠ '0' then false
    else true

/-- `MoneroUtils.mergeTx(txs, tx)`: scan `txs` in order; on the first entry
whose hash strictly equals `tx`'s hash (`===`, so two `undefined` hashes also
match), merge `tx` into that entry in place and stop; if no entry matches,
push `tx` at the end.  The in-place mutation `aTx.merge(tx)` is modelled by
replacing the matched element with `merge aTx tx`, where `merge` abstracts
`MoneroTx.merge` (defined outside this file's sources). -/
def mergeTx {T : Type} (merge : MoneroTxWallet T → MoneroTxWallet T → MoneroTxWallet T) :
    List (MoneroTxWallet T) → MoneroTxWallet T → List (MoneroTxWallet T)
  | [], tx => [tx]
  | aTx :: rest, tx =>
    if aTx.hash = tx.hash then merge aTx tx :: rest
    else aTx :: mergeTx merge rest tx

end MoneroUtils

/-- Error kinds of the filter layer.  `invalidFilterState` is the spec's
`InvalidFilterState`: malformed filter construction fails fast. -/
inductive FilterError
  | invalidFilterState
deriving DecidableEq, Repr

/-- A constructed `MoneroTxFilter`'s state, as read by `meetsCriteria`.
The nested `MoneroTransferFilter` (whose source is not part of this file's
corpus) enters `meetsCriteria` only through its own `meetsCriteria`, so it is
embedded as the predicate `T → Bool`. -/
structure MoneroTxFilter (T : Type) where
  tx : Option (MoneroTxWallet T) := none
  transferFilter : Option (T → Bool) := none
  txIds : Option (List String) := none
  hasPaymentId : Option Bool := none
  paymentIds : Option (List String) := none
  height : Option Nat := none
  minHeight : Option Nat := none
  maxHeight : Option Nat := none
  hasOutgoingTransfer : Option Bool := none
  hasIncomingTransfers : Option Bool := none

namespace MoneroTxFilter

/-- One template-field check of the template clause: the filter's template
value `tv` passes against the candidate value `cv` unless `tv` is defined and
differs from `cv` (`this.getTx().getX() !== undefined && this.getTx().getX()
!== tx.getX()` returns `false`). -/
def txFieldOk {α : Type} [DecidableEq α] (tv cv : Option α) : Bool :=
  decide (tv = none ∨ tv = cv)

/-- The clause guarded by `if (this.getTx())`: the eight scalar checks of
lines 433–440 of the source, in order. -/
def txClause {T : Type} (f : MoneroTxFilter T) (tx : MoneroTxWallet T) : Bool :=
  match f.tx with
  | none => true
  | some t =>
    txFieldOk t.id tx.id &&
    txFieldOk t.paymentId tx.paymentId &&
    txFieldOk t.isConfirmed tx.isConfirmed &&
    txFieldOk t.inTxPool tx.inTxPool &&
    txFieldOk t.doNotRelay tx.doNotRelay &&
    txFieldOk t.isRelayed tx.isRelayed &&
    txFieldOk t.isFailed tx.isFailed &&
    txFieldOk t.isCoinbase tx.isCoinbase

/-- The nested-transfer clause (`if (this.getTransferFilter())`): `matchFound`
is set if the outgoing transfer exists and meets the nested filter, else if
the incoming transfer list exists and some element meets it. -/
def transferClause {T : Type} (f : MoneroTxFilter T) (tx : MoneroTxWallet T) : Bool :=
  match f.transferFilter with
  | none => true
  | some tf =>
    (match tx.outgoingTransfer with
     | some o => tf o
     | none => false) ||
    (match tx.incomingTransfers with
     | some l => l.any tf
     | none => false)

/-- Guarded clause shape `if (this.getX() !== undefined) { ... }`: vacuously
true when the constraint is unset, else the body on the set value. -/
def optClause {α : Type} (o : Option α) (p : α → Bool) : Bool :=
  match o with
  | none => true
  | some v => p v

/-- `hasPaymentId` clause: with the constraint set to `b`, fail iff `b` and
the candidate's payment id is undefined, or `!b` and it is defined. -/
def hasPaymentIdClause {T : Type} (f : MoneroTxFilter T) (tx : MoneroTxWallet T) : Bool :=
  optClause f.hasPaymentId fun b => b = tx.paymentId.isSome

/-- `hasOutgoingTransfer` clause. -/
def hasOutgoingTransferClause {T : Type} (f : MoneroTxFilter T) (tx : MoneroTxWallet T) : Bool :=
  optClause f.hasOutgoingTransfer fun b => b = tx.outgoingTransfer.isSome

/-- The candidate "has incoming transfers" when the list is defined and
non-empty (`tx.getIncomingTransfers() !== undefined &&
tx.getIncomingTransfers().length > 0`). -/
def txHasIncomingTransfers {T : Type} (tx : MoneroTxWallet T) : Bool :=
  match tx.incomingTransfers with
  | none => false
  | some l => decide (0 < l.length)

/-- `hasIncomingTransfers` clause. -/
def hasIncomingTransfersClause {T : Type} (f : MoneroTxFilter T) (tx : MoneroTxWallet T) : Bool :=
  optClause f.hasIncomingTransfers fun b => b = txHasIncomingTransfers tx

/-- `txIds` clause: `!this.getTxIds().includes(tx.getId())` returns `false`;
an undefined candidate id is never an element of the id list. -/
def txIdsClause {T : Type} (f : MoneroTxFilter T) (tx : MoneroTxWallet T) : Bool :=
  optClause f.txIds fun ids =>
    match tx.id with
    | some i => ids.contains i
    | none => false

/-- `paymentIds` clause. -/
def paymentIdsClause {T : Type} (f : MoneroTxFilter T) (tx : MoneroTxWallet T) : Bool :=
  optClause f.paymentIds fun ids =>
    match tx.paymentId with
    | some i => ids.contains i
    | none => false

/-- The derived candidate height of line 477: `undefined` when the block or
its header is absent, else the header's height. -/
def txHeight {T : Type} (tx : MoneroTxWallet T) : Option Nat :=
  match tx.block with
  | none => none
  | some b =>
    match b.header with
    | none => none
    | some h => h.height

/-- `height` clause: fail iff the derived height is not strictly equal to the
requested height. -/
def heightClause {T : Type} (f : MoneroTxFilter T) (tx : MoneroTxWallet T) : Bool :=
  optClause f.height fun hv => decide (txHeight tx = some hv)

/-- `minHeight` clause: fail iff the derived height is undefined or below the
bound. -/
def minHeightClause {T : Type} (f : MoneroTxFilter T) (tx : MoneroTxWallet T) : Bool :=
  optClause f.minHeight fun m =>
    match txHeight tx with
    | none => false
    | some h => decide (m ≤ h)

/-- `maxHeight` clause: fail iff the derived height is undefined or above the
bound. -/
def maxHeightClause {T : Type} (f : MoneroTxFilter T) (tx : MoneroTxWallet T) : Bool :=
  optClause f.maxHeight fun M =>
    match txHeight tx with
    | none => false
    | some h => decide (h ≤ M)

/-- `MoneroTxFilter.meetsCriteria(tx)`: the conjunction, in source order, of
the template clause, nested-transfer clause, the three presence clauses, the
two membership clauses and the three height clauses; each early
`return false` of the source is a failing conjunct. -/
def meetsCriteria {T : Type} (f : MoneroTxFilter T) (tx : MoneroTxWallet T) : Bool :=
  txClause f tx &&
  transferClause f tx &&
  hasPaymentIdClause f tx &&
  hasOutgoingTransferClause f tx &&
  hasIncomingTransfersClause f tx &&
  txIdsClause f tx &&
  paymentIdsClause f tx &&
  heightClause f tx &&
  minHeightClause f tx &&
  maxHeightClause f tx

end MoneroTxFilter

/-!
## Filter construction (`MoneroTxFilter`'s constructor)

The constructor receives a plain state object and deserializes it: a given
`state.tx` that is not already a `MoneroTxWallet` instance is passed to
`new MoneroTxWallet(state.tx)`, a given `state.transferFilter` that is not a
`MoneroTransferFilter` instance is passed to
`new MoneroTransferFilter(state.transferFilter)`, and an absent `state.tx` is
replaced by `new MoneroTxWallet(state)`.  The entity constructors
`MoneroTxWallet` / `MoneroTransferFilter` are not part of this file's corpus.
-/

/-- A raw value supplied for the constructor's `state.tx` slot: an existing
`MoneroTxWallet` instance, a well-formed plain-object state that deserializes
to one, or a malformed non-Entity value. -/
inductive RawTxState (T : Type)
  | walletInstance (t : MoneroTxWallet T)
  | jsonState (t : MoneroTxWallet T)
  | malformed

/-- A raw value supplied for the constructor's `state.transferFilter` slot. -/
inductive RawTransferFilterState (T : Type)
  | filterInstance (p : T → Bool)
  | jsonState (p : T → Bool)
  | malformed

/-- The plain state object handed to the `MoneroTxFilter` constructor. -/
structure RawFilterState (T : Type) where
  tx : Option (RawTxState T) := none
  transferFilter : Option (RawTransferFilterState T) := none
  txIds : Option (List String) := none
  hasPaymentId : Option Bool := none
  paymentIds : Option (List String) := none
  height : Option Nat := none
  minHeight : Option Nat := none
  maxHeight : Option Nat := none
  hasOutgoingTransfer : Option Bool := none
  hasIncomingTransfers : Option Bool := none

/-- Modelled from the spec: the `MoneroTransferFilter` constructor is not
under this file's sources; per the spec's failure mode, deserializing a
malformed (non-Entity) value fails fast with `InvalidFilterState`, while a
well-formed state or an existing instance yields the filter. -/
def newMoneroTransferFilter {T : Type} :
    RawTransferFilterState T → Except FilterError (T → Bool)
  | .filterInstance p => .ok p
  | .jsonState p => .ok p
  | .malformed => .error .invalidFilterState

/-- Modelled from the spec: the `MoneroTxWallet` constructor is not under
this file's sources; per the spec's failure mode, a malformed (non-Entity)
value fails fast with `InvalidFilterState`, while a well-formed plain state
deserializes to the wallet transaction it describes. -/
def newMoneroTxWallet {T : Type} :
    RawTxState T → Except FilterError (MoneroTxWallet T)
  | .walletInstance t => .ok t
  | .jsonState t => .ok t
  | .malformed => .error .invalidFilterState

/-- The `MoneroTxFilter` constructor: copy the state, deserialize
`state.transferFilter` if given and not already an instance, deserialize
`state.tx` if given and not already an instance (an absent `state.tx` becomes
`new MoneroTxWallet(state)`, here the template with every field unset since
`RawFilterState` carries no template fields of its own). -/
def mkMoneroTxFilter {T : Type} (s : RawFilterState T) :
    Except FilterError (MoneroTxFilter T) :=
  match (match s.transferFilter with
         | none => Except.ok (none : Option (T → Bool))
         | some raw =>
           match newMoneroTransferFilter raw with
           | .ok p => .ok (some p)
           | .error e => .error e) with
  | .error e => .error e
  | .ok tf =>
    match (match s.tx with
           | none => Except.ok ({} : MoneroTxWallet T)
           | some raw => newMoneroTxWallet raw) with
    | .error e => .error e
    | .ok t =>
      .ok { tx := some t, transferFilter := tf, txIds := s.txIds,
            hasPaymentId := s.hasPaymentId, paymentIds := s.paymentIds,
            height := s.height, minHeight := s.minHeight,
            maxHeight := s.maxHeight,
            hasOutgoingTransfer := s.hasOutgoingTransfer,
            hasIncomingTransfers := s.hasIncomingTransfers }

/-- A raw filter state is malformed when a non-Entity value sits where an
Entity is required. -/
def rawFilterStateMalformed {T : Type} (s : RawFilterState T) : Prop :=
  s.tx = some RawTxState.malformed ∨
  s.transferFilter = some RawTransferFilterState.malformed

/-!
## The cryptography/codec provider boundary (`MoneroUtils`)

`validateAddress`, `jsonToBinary`, `binaryToJson` and `binaryBlocksToJson`
all begin with `if (LibraryUtils.getWasmModule() === undefined) throw
MoneroError("WASM module is not loaded; ...")` before touching the module.
The loaded module is embedded as a record of the opaque calls the source
makes on it; its heap marshalling (malloc / HEAPU8 reads / free) is absorbed
into the byte-level result of each call.  `JSON.parse` / `JSON.stringify`
are host builtins and enter as parameters.
-/

/-- Errors surfaced by the `MoneroUtils` provider-boundary operations.
`providerUnavailable` is the spec's `ProviderUnavailable`: the guard
`throw MoneroError("WASM module is not loaded; ...")` (the guard's error
construction is modelled from the spec's error kind). -/
inductive MErr
  | assertFail (msg : String)
  | providerUnavailable
  | wasmValidation (msg : String)
deriving DecidableEq, Repr

/-- The raw container `JSON.parse(json_str)` yields in `binaryBlocksToJson`:
an array of block strings and, per block, either an array of transaction
strings or a missing (`null`/`undefined`) entry. -/
structure RawBlocksJson where
  blocks : List String
  txs : List (Option (List String))

/-- The structured result of `binaryBlocksToJson` after post-processing, over
an abstract JSON value type `J`. -/
structure BlocksJson (J : Type) where
  blocks : List J
  txs : List (List J)

/-- The loaded WASM module, restricted to the calls the source makes on it.
`validate_address` returns the error message (JS-falsy when valid);
the three codec calls are opaque string/byte transformations, with the heap
round trips absorbed. -/
structure WasmModule where
  validate_address : String → Option Nat → Option String
  malloc_binary_from_json : String → List Nat
  binary_to_json : List Nat → String
  binary_blocks_to_json : List Nat → String

/-- Modelled: `GenUtils.isBase58` (not under this file's sources): every
character of the address belongs to the base-58 alphabet. -/
def isBase58 (s : String) : Bool :=
  s.data.all fun c =>
    ("123456789ABCDEFGHJKLMNPQRSTUVWXYZabcdefghijkmnopqrstuvwxyz".data).contains c

/-- Modelled: `MoneroNetworkType.validate` (not under this file's sources):
the network type must be one of the three Monero network types 0, 1, 2; an
`undefined` network type is invalid. -/
def networkTypeValid : Option Nat → Bool
  | none => false
  | some n => decide (n = 0 ∨ n = 1 ∨ n = 2)

/-- JS truthiness of the module's returned error message: `undefined`, `null`
and the empty string are falsy. -/
def jsTruthyStr : Option String → Bool
  | none => false
  | some s => decide (s ≠ "")

namespace MoneroUtils

/-- `MoneroUtils.validateAddress(address, networkType)`: assert the address
is a non-empty base-58 string, validate the network type, then require the
WASM module to be preloaded, then delegate to the module and throw its error
message if truthy. -/
def validateAddress (wasm : Option WasmModule) (address : String)
    (networkType : Option Nat) : Except MErr Unit :=
  if address.length = 0 then .error (.assertFail "Address is empty")
  else if ¬ isBase58 address then .error (.assertFail "Address is not base 58")
  else if ¬ networkTypeValid networkType then
    .error (.assertFail "Network type is invalid")
  else
    match wasm with
    | none => .error .providerUnavailable
    | some m =>
      if jsTruthyStr (m.validate_address address networkType) then
        .error (.wasmValidation ((m.validate_address address networkType).getD ""))
      else .ok ()

/-- `MoneroUtils.isValidAddress(address, networkType)`: `true` iff
`MoneroUtils.validateAddress(address)` does not throw — the call forwards the
address only, so the network-type argument inside the callee is `undefined`
(`none`). -/
def isValidAddress (wasm : Option WasmModule) (address : String)
    (networkType : Option Nat) : Bool :=
  match validateAddress wasm address none with
  | .ok _ => true
  | .error _ => false

/-- `MoneroUtils.jsonToBinary(json)`: require the module, then serialize the
stringified JSON to portable-storage bytes (heap marshalling absorbed into
the module call). -/
def jsonToBinary {J : Type} (stringify : J → String) (wasm : Option WasmModule)
    (json : J) : Except MErr (List Nat) :=
  match wasm with
  | none => .error .providerUnavailable
  | some m => .ok (m.malloc_binary_from_json (stringify json))

/-- `MoneroUtils.binaryToJson(uint8arr)`: require the module, then parse the
string the module converts the bytes to. -/
def binaryToJson {J : Type} (parse : String → J) (wasm : Option WasmModule)
    (bytes : List Nat) : Except MErr J :=
  match wasm with
  | none => .error .providerUnavailable
  | some m => .ok (parse (m.binary_to_json bytes))

/-- JS `str.replace(",", "{")`: replace the first `','` (if any) by `'{'`. -/
def replaceFirstComma : List Char → List Char
  | [] => []
  | c :: rest => if c = ',' then '{' :: rest else c :: replaceFirstComma rest

/-- The transaction-string self-heal of line 300:
`tx.replace(",", "{") + "}"`. -/
def healTxString (s : String) : String :=
  ⟨replaceFirstComma s.data ++ ['}']⟩

/-- Lines 298–301 of `binaryBlocksToJson`: parse every block string as-is;
replace each per-block transaction list by its entries healed then parsed,
a missing list by `[]`. -/
def blocksJsonPostProcess {J : Type} (parse : String → J) (raw : RawBlocksJson) :
    BlocksJson J :=
  { blocks := raw.blocks.map parse,
    txs := raw.txs.map fun otxs =>
      match otxs with
      | none => []
      | some txs => txs.map fun tx => parse (healTxString tx) }

/-- `MoneroUtils.binaryBlocksToJson(uint8arr)`: require the module, convert
the bytes through it, parse the raw container, then post-process blocks and
transactions. -/
def binaryBlocksToJson {J : Type} (parseRaw : String → RawBlocksJson)
    (parse : String → J) (wasm : Option WasmModule) (bytes : List Nat) :
    Except MErr (BlocksJson J) :=
  match wasm with
  | none => .error .providerUnavailable
  | some m => .ok (blocksJsonPostProcess parse (parseRaw (m.binary_blocks_to_json bytes)))

end MoneroUtils

/-!
## Helper lemmas
-/

/-- A three-way guarded loop body is `true` iff none of its guards fires. -/
theorem ite3_eq_true_iff {A B C : Prop} [Decidable A] [Decidable B] [Decidable C] :
    (if A then false else if B then false else if C then false else true) = true ↔
      (¬ A ∧ ¬ B ∧ ¬ C) := by
  by_cases hA : A <;> by_cases hB : B <;> by_cases hC : C <;> simp [hA, hB, hC]

namespace MoneroUtils

theorem mergeTx_no_match {T : Type}
    (merge : MoneroTxWallet T → MoneroTxWallet T → MoneroTxWallet T)
    (txs : List (MoneroTxWallet T)) (tx : MoneroTxWallet T)
    (h : ∀ t ∈ txs, ¬ t.hash = tx.hash) :
    mergeTx merge txs tx = txs ++ [tx] := by
  induction txs with
  | nil => rfl
  | cons a rest ih =>
    simp only [mergeTx]
    rw [if_neg (h a (List.mem_cons_self a rest))]
    rw [ih fun t ht => h t (List.mem_cons_of_mem a ht)]
    rfl

theorem mergeTx_first_match {T : Type}
    (merge : MoneroTxWallet T → MoneroTxWallet T → MoneroTxWallet T)
    (pre post : List (MoneroTxWallet T)) (t tx : MoneroTxWallet T)
    (hpre : ∀ p ∈ pre, ¬ p.hash = tx.hash) (ht : t.hash = tx.hash) :
    mergeTx merge (pre ++ t :: post) tx = pre ++ merge t tx :: post := by
  induction pre with
  | nil => simp only [List.nil_append, mergeTx, if_pos ht]
  | cons a pre' ih =>
    simp only [List.cons_append, mergeTx]
    rw [if_neg (hpre a (List.mem_cons_self a pre'))]
    exact congrArg (a :: ·) (ih fun p hp => hpre p (List.mem_cons_of_mem a hp))

theorem paymentIdsEqual_iff (p1 p2 : List Char) :
    paymentIdsEqual p1 p2 = true ↔
      ((∀ i, i < p1.length → i < p2.length → p1.getD i ' ' = p2.getD i ' ') ∧
       (∀ i, p2.length ≤ i → i < p1.length → p1.getD i ' ' = '0') ∧
       (∀ i, p1.length ≤ i → i < p2.length → p2.getD i ' ' = '0')) := by
  rw [paymentIdsEqual, List.all_eq_true]
  constructor
  · intro h
    refine ⟨fun i h1 h2 => ?_, fun i h2 h1 => ?_, fun i h1 h2 => ?_⟩
    · have hm : i ∈ List.range (max p1.length p2.length) :=
        List.mem_range.mpr (lt_max_of_lt_left h1)
      have hb := (ite3_eq_true_iff).mp (h i hm)
      by_contra hne
      exact hb.1 ⟨h1, h2, hne⟩
    · have hm : i ∈ List.range (max p1.length p2.length) :=
        List.mem_range.mpr (lt_max_of_lt_left h1)
      have hb := (ite3_eq_true_iff).mp (h i hm)
      by_contra hne
      exact hb.2.2 ⟨h2, hne⟩
    · have hm : i ∈ List.range (max p1.length p2.length) :=
        List.mem_range.mpr (lt_max_of_lt_right h2)
      have hb := (ite3_eq_true_iff).mp (h i hm)
      by_contra hne
      exact hb.2.1 ⟨h1, hne⟩
  · intro ⟨hshared, hover1, hover2⟩ i hm
    have hi : i < max p1.length p2.length := List.mem_range.mp hm
    refine (ite3_eq_true_iff).mpr ⟨?_, ?_, ?_⟩
    · rintro ⟨h1, h2, hne⟩
      exact hne (hshared i h1 h2)
    · rintro ⟨h1, hne⟩
      have h2 : i < p2.length := by omega
      exact hne (hover2 i h1 h2)
    · rintro ⟨h2, hne⟩
      have h1 : i < p1.length := by omega
      exact hne (hover1 i h2 h1)

end MoneroUtils

/-!
## Claim theorems
-/

/-- C1: `mergeTx(txs, tx)` scans `txs` in order for the first entry whose
hash equals `tx`'s hash; if found it merges `tx` into that entry in place
(list length and order unchanged), otherwise it appends `tx` at the end; in
particular `mergeTx([], tx)` appends and `mergeTx([t], t2)` with equal hashes
merges in place with the length staying 1. -/
theorem claim_C1_mergeTx {T : Type}
    (merge : MoneroTxWallet T → MoneroTxWallet T → MoneroTxWallet T) :
    (∀ (txs : List (MoneroTxWallet T)) (tx : MoneroTxWallet T),
       (∀ t ∈ txs, ¬ t.hash = tx.hash) →
       MoneroUtils.mergeTx merge txs tx = txs ++ [tx]) ∧
    (∀ (pre post : List (MoneroTxWallet T)) (t tx : MoneroTxWallet T),
       (∀ p ∈ pre, ¬ p.hash = tx.hash) → t.hash = tx.hash →
       MoneroUtils.mergeTx merge (pre ++ t :: post) tx = pre ++ merge t tx :: post ∧
       (MoneroUtils.mergeTx merge (pre ++ t :: post) tx).length =
         (pre ++ t :: post).length) ∧
    (∀ tx : MoneroTxWallet T, MoneroUtils.mergeTx merge [] tx = [tx]) ∧
    (∀ t t2 : MoneroTxWallet T, t2.hash = t.hash →
       MoneroUtils.mergeTx merge [t] t2 = [merge t t2]) := by
  refine ⟨MoneroUtils.mergeTx_no_match merge, ?_, fun tx => rfl, ?_⟩
  · intro pre post t tx hpre ht
    have h := MoneroUtils.mergeTx_first_match merge pre post t tx hpre ht
    refine ⟨h, ?_⟩
    rw [h]
    simp
  · intro t t2 h
    have := MoneroUtils.mergeTx_first_match merge [] [] t t2 (by simp) h.symm
    simpa using this

/-- C1 witness: concrete applications of `claim_C1_mergeTx` — the empty-list
append and the equal-hash in-place merge keeping length 1. -/
theorem claim_C1_mergeTx_witness :
    MoneroUtils.mergeTx (fun a _ => a) ([] : List (MoneroTxWallet Nat))
      { hash := some "abc123" } = [{ hash := some "abc123" }] ∧
    MoneroUtils.mergeTx (fun a _ => a)
      [({ hash := some "abc123" } : MoneroTxWallet Nat)]
      { hash := some "abc123", id := some "i" } = [{ hash := some "abc123" }] :=
  ⟨(claim_C1_mergeTx (fun a _ => a)).2.2.1 { hash := some "abc123" },
   (claim_C1_mergeTx (fun a _ => a)).2.2.2
     { hash := some "abc123" } { hash := some "abc123", id := some "i" } rfl⟩

/-- C4: `paymentIdsEqual` compares payment ids under zero-padding
equivalence: equal iff they agree on every shared position and the longer is
all `'0'` beyond the shorter's length; the two documented 16/64-character
examples behave as stated. -/
theorem claim_C4_paymentIdsEqual :
    (∀ a b : List Char,
       MoneroUtils.paymentIdsEqual a b = true ↔
         ((∀ i, i < a.length → i < b.length → a.getD i ' ' = b.getD i ' ') ∧
          (∀ i, b.length ≤ i → i < a.length → a.getD i ' ' = '0') ∧
          (∀ i, a.length ≤ i → i < b.length → b.getD i ' ' = '0'))) ∧
    MoneroUtils.paymentIdsEqual "03284e41c342f032".data
      ("03284e41c342f032".data ++ List.replicate 48 '0') = true ∧
    MoneroUtils.paymentIdsEqual ("03284e41c342f033".data ++ List.replicate 48 '0')
      "03284e41c342f032".data = false :=
  ⟨MoneroUtils.paymentIdsEqual_iff, by decide, by decide⟩

namespace MoneroTxFilter

theorem meetsCriteria_eq_true_iff {T : Type} (f : MoneroTxFilter T) (tx : MoneroTxWallet T) :
    meetsCriteria f tx = true ↔
      (txClause f tx = true ∧ transferClause f tx = true ∧
       hasPaymentIdClause f tx = true ∧ hasOutgoingTransferClause f tx = true ∧
       hasIncomingTransfersClause f tx = true ∧ txIdsClause f tx = true ∧
       paymentIdsClause f tx = true ∧ heightClause f tx = true ∧
       minHeightClause f tx = true ∧ maxHeightClause f tx = true) := by
  simp [meetsCriteria, Bool.and_eq_true, and_assoc]

theorem txHeight_eq_none {T : Type} {tx : MoneroTxWallet T}
    (h : tx.block = none ∨ ∃ b, tx.block = some b ∧ b.header = none) :
    txHeight tx = none := by
  rcases h with h | ⟨b, hb, hh⟩
  · simp [txHeight, h]
  · simp [txHeight, hb, hh]

end MoneroTxFilter

/-- C6: with any height-bound clause set (`height`, `minHeight` or
`maxHeight`), a candidate whose block or block header is absent (unknown
height) makes `meetsCriteria` return `false`, even for bounds such as
`minHeight = 0`. -/
theorem claim_C6_unknownHeight {T : Type} (f : MoneroTxFilter T) (tx : MoneroTxWallet T)
    (hconstraint : f.height ≠ none ∨ f.minHeight ≠ none ∨ f.maxHeight ≠ none)
    (habsent : tx.block = none ∨ ∃ b, tx.block = some b ∧ b.header = none) :
    MoneroTxFilter.meetsCriteria f tx = false := by
  have hh := MoneroTxFilter.txHeight_eq_none habsent
  rw [Bool.eq_false_iff]
  intro htrue
  rw [MoneroTxFilter.meetsCriteria_eq_true_iff] at htrue
  obtain ⟨-, -, -, -, -, -, -, hht, hmin, hmax⟩ := htrue
  rcases hconstraint with hc | hc | hc
  · obtain ⟨v, hv⟩ := Option.ne_none_iff_exists'.mp hc
    rw [MoneroTxFilter.heightClause, hv] at hht
    simp [MoneroTxFilter.optClause, hh] at hht
  · obtain ⟨v, hv⟩ := Option.ne_none_iff_exists'.mp hc
    rw [MoneroTxFilter.minHeightClause, hv] at hmin
    simp [MoneroTxFilter.optClause, hh] at hmin
  · obtain ⟨v, hv⟩ := Option.ne_none_iff_exists'.mp hc
    rw [MoneroTxFilter.maxHeightClause, hv] at hmax
    simp [MoneroTxFilter.optClause, hh] at hmax

/-- C6 witness: the filter requiring `minHeight = 0` rejects the concrete
block-less candidate. -/
theorem claim_C6_unknownHeight_witness :
    MoneroTxFilter.meetsCriteria ({ minHeight := some 0 } : MoneroTxFilter Nat) {} = false :=
  claim_C6_unknownHeight { minHeight := some 0 } {}
    (Or.inr (Or.inl (by simp))) (Or.inl rfl)

/-- C5: with a nested transfer filter set, the nested-transfer clause holds
iff the outgoing transfer or some incoming transfer individually satisfies
the nested filter; a candidate with no outgoing transfer and no incoming
transfers fails the clause and `meetsCriteria` returns `false`. -/
theorem claim_C5_transferClause {T : Type} (f : MoneroTxFilter T) (tf : T → Bool)
    (tx : MoneroTxWallet T) (hset : f.transferFilter = some tf) :
    (MoneroTxFilter.transferClause f tx = true ↔
      ((∃ o, tx.outgoingTransfer = some o ∧ tf o = true) ∨
       (∃ l, tx.incomingTransfers = some l ∧ ∃ t ∈ l, tf t = true))) ∧
    (tx.outgoingTransfer = none →
     (tx.incomingTransfers = none ∨ tx.incomingTransfers = some []) →
     MoneroTxFilter.transferClause f tx = false ∧
     MoneroTxFilter.meetsCriteria f tx = false) := by
  constructor
  · simp only [MoneroTxFilter.transferClause, hset]
    rcases ho : tx.outgoingTransfer with _ | o <;>
      rcases hi : tx.incomingTransfers with _ | l <;>
        simp [List.any_eq_true]
  · intro hout hin
    have hfalse : MoneroTxFilter.transferClause f tx = false := by
      simp only [MoneroTxFilter.transferClause, hset, hout]
      rcases hin with hin | hin <;> simp [hin]
    refine ⟨hfalse, ?_⟩
    rw [Bool.eq_false_iff]
    intro htrue
    rw [MoneroTxFilter.meetsCriteria_eq_true_iff] at htrue
    rw [htrue.2.1] at hfalse
    cases hfalse

/-- C5 witness: a filter with the always-true nested transfer filter rejects
the concrete candidate that has no transfers at all. -/
theorem claim_C5_transferClause_witness :
    MoneroTxFilter.meetsCriteria
      ({ transferFilter := some fun _ => true } : MoneroTxFilter Nat) {} = false :=
  ((claim_C5_transferClause { transferFilter := some fun _ => true } (fun _ => true) {}
      rfl).2 rfl (Or.inl rfl)).2

/-- The template clause as the specification's words state it: "for every
field set (defined) on the filter's template transaction, the candidate's
corresponding field is defined and equal" — ranging over every field of the
transaction entity.  Stated for comparison with `MoneroTxFilter.txClause`,
which the code restricts to eight scalar fields. -/
def templateAllFieldsMatch {T : Type} [DecidableEq T]
    (t c : MoneroTxWallet T) : Bool :=
  MoneroTxFilter.txFieldOk t.id c.id &&
  MoneroTxFilter.txFieldOk t.paymentId c.paymentId &&
  MoneroTxFilter.txFieldOk t.isConfirmed c.isConfirmed &&
  MoneroTxFilter.txFieldOk t.inTxPool c.inTxPool &&
  MoneroTxFilter.txFieldOk t.doNotRelay c.doNotRelay &&
  MoneroTxFilter.txFieldOk t.isRelayed c.isRelayed &&
  MoneroTxFilter.txFieldOk t.isFailed c.isFailed &&
  MoneroTxFilter.txFieldOk t.isCoinbase c.isCoinbase &&
  MoneroTxFilter.txFieldOk t.outgoingTransfer c.outgoingTransfer &&
  MoneroTxFilter.txFieldOk t.incomingTransfers c.incomingTransfers &&
  MoneroTxFilter.txFieldOk t.block c.block &&
  MoneroTxFilter.txFieldOk t.hash c.hash

/-- C3 counterexample: a filter whose template transaction sets its `hash`
field accepts a candidate whose `hash` is undefined — the template clause of
the code checks only eight scalar fields, so a template field outside them
imposes no constraint, refuting the claim's "for EVERY field set on the
filter's template transaction". -/
theorem claim_C3_counterexample :
    MoneroTxFilter.meetsCriteria
      ({ tx := some { hash := some "abc123" } } : MoneroTxFilter Nat) {} = true ∧
    templateAllFieldsMatch ({ hash := some "abc123" } : MoneroTxWallet Nat) {} = false := by
  constructor <;> decide

/-- C3 (amended): `meetsCriteria` accepts a candidate only if, for every
field among the eight checked scalar fields (id, paymentId, isConfirmed,
inTxPool, doNotRelay, isRelayed, isFailed, isCoinbase) that is set on the
filter's template transaction, the candidate's corresponding field is defined
and equal; unset template fields — and template fields outside those eight —
impose no constraint (the template clause is determined by exactly those
eight checks). -/
theorem claim_C3_templateClause {T : Type} (f : MoneroTxFilter T)
    (t tx : MoneroTxWallet T) (hset : f.tx = some t) :
    (MoneroTxFilter.meetsCriteria f tx = true →
      MoneroTxFilter.txClause f tx = true) ∧
    (MoneroTxFilter.txClause f tx = true ↔
      ((t.id = none ∨ t.id = tx.id) ∧
       (t.paymentId = none ∨ t.paymentId = tx.paymentId) ∧
       (t.isConfirmed = none ∨ t.isConfirmed = tx.isConfirmed) ∧
       (t.inTxPool = none ∨ t.inTxPool = tx.inTxPool) ∧
       (t.doNotRelay = none ∨ t.doNotRelay = tx.doNotRelay) ∧
       (t.isRelayed = none ∨ t.isRelayed = tx.isRelayed) ∧
       (t.isFailed = none ∨ t.isFailed = tx.isFailed) ∧
       (t.isCoinbase = none ∨ t.isCoinbase = tx.isCoinbase))) := by
  constructor
  · intro h
    exact ((MoneroTxFilter.meetsCriteria_eq_true_iff f tx).mp h).1
  · simp only [MoneroTxFilter.txClause, hset, MoneroTxFilter.txFieldOk,
      Bool.and_eq_true, decide_eq_true_iff, and_assoc]

/-- C3 witness: `claim_C3_templateClause` applied at a concrete filter whose
template sets `id`, accepting the candidate with the equal defined `id`. -/
theorem claim_C3_templateClause_witness :
    MoneroTxFilter.txClause
      ({ tx := some { id := some "i" } } : MoneroTxFilter Nat)
      { id := some "i" } = true :=
  (claim_C3_templateClause { tx := some { id := some "i" } }
      { id := some "i" } { id := some "i" } rfl).2.mpr (by decide)

namespace MoneroTxFilter

/-- Constraint containment on one optional clause: whenever the first filter
sets the clause, the second sets it identically. -/
def opSub {α : Type} (a b : Option α) : Prop :=
  ∀ v, a = some v → b = some v

/-- The template constraint a filter places on one transaction field: `none`
when no template transaction is set or the template leaves the field unset. -/
def tplField {T α : Type} (f : MoneroTxFilter T)
    (g : MoneroTxWallet T → Option α) : Option α :=
  f.tx.bind g

/-- "F2's constraint set contains all of F1's constraints": every clause set
on F1 — each of the eight template-field constraints, the nested transfer
filter, and each scalar/range/presence/membership constraint — is set
identically on F2. -/
structure Subsumes {T : Type} (f1 f2 : MoneroTxFilter T) : Prop where
  tpl_id : opSub (tplField f1 fun t => t.id) (tplField f2 fun t => t.id)
  tpl_paymentId : opSub (tplField f1 fun t => t.paymentId) (tplField f2 fun t => t.paymentId)
  tpl_isConfirmed : opSub (tplField f1 fun t => t.isConfirmed) (tplField f2 fun t => t.isConfirmed)
  tpl_inTxPool : opSub (tplField f1 fun t => t.inTxPool) (tplField f2 fun t => t.inTxPool)
  tpl_doNotRelay : opSub (tplField f1 fun t => t.doNotRelay) (tplField f2 fun t => t.doNotRelay)
  tpl_isRelayed : opSub (tplField f1 fun t => t.isRelayed) (tplField f2 fun t => t.isRelayed)
  tpl_isFailed : opSub (tplField f1 fun t => t.isFailed) (tplField f2 fun t => t.isFailed)
  tpl_isCoinbase : opSub (tplField f1 fun t => t.isCoinbase) (tplField f2 fun t => t.isCoinbase)
  sub_transferFilter : opSub f1.transferFilter f2.transferFilter
  sub_txIds : opSub f1.txIds f2.txIds
  sub_hasPaymentId : opSub f1.hasPaymentId f2.hasPaymentId
  sub_paymentIds : opSub f1.paymentIds f2.paymentIds
  sub_height : opSub f1.height f2.height
  sub_minHeight : opSub f1.minHeight f2.minHeight
  sub_maxHeight : opSub f1.maxHeight f2.maxHeight
  sub_hasOutgoingTransfer : opSub f1.hasOutgoingTransfer f2.hasOutgoingTransfer
  sub_hasIncomingTransfers : opSub f1.hasIncomingTransfers f2.hasIncomingTransfers

theorem opSub_none {α : Type} {a : Option α} (h : opSub a none) : a = none := by
  cases ha : a with
  | none => rfl
  | some v => exact Option.noConfusion (h v ha)

theorem tplField_eq_of_some {T α : Type} {f : MoneroTxFilter T} {t : MoneroTxWallet T}
    (h : f.tx = some t) (g : MoneroTxWallet T → Option α) : tplField f g = g t := by
  rw [tplField, h]; rfl

theorem tplField_eq_of_none {T α : Type} {f : MoneroTxFilter T}
    (h : f.tx = none) (g : MoneroTxWallet T → Option α) : tplField f g = none := by
  rw [tplField, h]; rfl

theorem txFieldOk_mono {α : Type} [DecidableEq α] {tv1 tv2 cv : Option α}
    (hsub : opSub tv1 tv2) (h : txFieldOk tv2 cv = true) : txFieldOk tv1 cv = true := by
  cases htv : tv1 with
  | none => simp [txFieldOk]
  | some v =>
    have h2 : tv2 = some v := hsub v htv
    rw [txFieldOk, decide_eq_true_iff] at h ⊢
    rcases h with h | h
    · rw [h2] at h; cases h
    · right; rw [h2] at h; exact h

theorem txFieldOk_of_sub {T α : Type} [DecidableEq α] {f1 f2 : MoneroTxFilter T}
    {t1 : MoneroTxWallet T} (h1 : f1.tx = some t1) {g : MoneroTxWallet T → Option α}
    (hsub : opSub (tplField f1 g) (tplField f2 g)) (cv : Option α)
    (h : ∀ t2, f2.tx = some t2 → txFieldOk (g t2) cv = true) :
    txFieldOk (g t1) cv = true := by
  cases h2 : f2.tx with
  | none =>
    have hsub' : opSub (g t1) none := by
      rw [← tplField_eq_of_some h1 g, ← tplField_eq_of_none h2 g]
      exact hsub
    simp [txFieldOk, opSub_none hsub']
  | some t2 =>
    have hsub' : opSub (g t1) (g t2) := by
      rw [← tplField_eq_of_some h1 g, ← tplField_eq_of_some h2 g]
      exact hsub
    exact txFieldOk_mono hsub' (h t2 h2)

theorem txClause_mono {T : Type} {f1 f2 : MoneroTxFilter T} (hs : Subsumes f1 f2)
    (tx : MoneroTxWallet T) (h : txClause f2 tx = true) : txClause f1 tx = true := by
  cases h1 : f1.tx with
  | none => simp [txClause, h1]
  | some t1 =>
    have key : ∀ t2, f2.tx = some t2 →
        (txFieldOk t2.id tx.id = true ∧ txFieldOk t2.paymentId tx.paymentId = true ∧
         txFieldOk t2.isConfirmed tx.isConfirmed = true ∧
         txFieldOk t2.inTxPool tx.inTxPool = true ∧
         txFieldOk t2.doNotRelay tx.doNotRelay = true ∧
         txFieldOk t2.isRelayed tx.isRelayed = true ∧
         txFieldOk t2.isFailed tx.isFailed = true ∧
         txFieldOk t2.isCoinbase tx.isCoinbase = true) := by
      intro t2 h2
      rw [txClause, h2] at h
      simp only [Bool.and_eq_true, and_assoc] at h
      exact h
    simp only [txClause, h1, Bool.and_eq_true, and_assoc]
    exact ⟨txFieldOk_of_sub h1 hs.tpl_id tx.id fun t2 h2 => (key t2 h2).1,
           txFieldOk_of_sub h1 hs.tpl_paymentId tx.paymentId fun t2 h2 => (key t2 h2).2.1,
           txFieldOk_of_sub h1 hs.tpl_isConfirmed tx.isConfirmed fun t2 h2 => (key t2 h2).2.2.1,
           txFieldOk_of_sub h1 hs.tpl_inTxPool tx.inTxPool fun t2 h2 => (key t2 h2).2.2.2.1,
           txFieldOk_of_sub h1 hs.tpl_doNotRelay tx.doNotRelay fun t2 h2 => (key t2 h2).2.2.2.2.1,
           txFieldOk_of_sub h1 hs.tpl_isRelayed tx.isRelayed fun t2 h2 => (key t2 h2).2.2.2.2.2.1,
           txFieldOk_of_sub h1 hs.tpl_isFailed tx.isFailed fun t2 h2 => (key t2 h2).2.2.2.2.2.2.1,
           txFieldOk_of_sub h1 hs.tpl_isCoinbase tx.isCoinbase fun t2 h2 => (key t2 h2).2.2.2.2.2.2.2⟩

theorem optClause_mono {α : Type} {o1 o2 : Option α} (hsub : opSub o1 o2)
    (p : α → Bool) (h : optClause o2 p = true) : optClause o1 p = true := by
  cases ho : o1 with
  | none => rfl
  | some v =>
    rw [hsub v ho] at h
    rw [optClause]
    rw [optClause] at h
    exact h

theorem transferClause_mono {T : Type} {f1 f2 : MoneroTxFilter T}
    (hsub : opSub f1.transferFilter f2.transferFilter)
    (tx : MoneroTxWallet T) (h : transferClause f2 tx = true) :
    transferClause f1 tx = true := by
  cases ho : f1.transferFilter with
  | none => simp [transferClause, ho]
  | some tf =>
    have h2 := hsub tf ho
    rw [transferClause, h2] at h
    rw [transferClause, ho]
    exact h

end MoneroTxFilter

/-- C2: filter monotonicity — when every clause set on F1 is set identically
on F2 (F2 may set more), any candidate meeting F2's criteria also meets
F1's: adding constraints never increases the set of matched transactions. -/
theorem claim_C2_monotonicity {T : Type} (f1 f2 : MoneroTxFilter T)
    (hs : MoneroTxFilter.Subsumes f1 f2) (tx : MoneroTxWallet T)
    (h : MoneroTxFilter.meetsCriteria f2 tx = true) :
    MoneroTxFilter.meetsCriteria f1 tx = true := by
  rw [MoneroTxFilter.meetsCriteria_eq_true_iff] at h ⊢
  obtain ⟨h1, h2, h3, h4, h5, h6, h7, h8, h9, h10⟩ := h
  exact ⟨MoneroTxFilter.txClause_mono hs tx h1,
         MoneroTxFilter.transferClause_mono hs.sub_transferFilter tx h2,
         MoneroTxFilter.optClause_mono hs.sub_hasPaymentId _ h3,
         MoneroTxFilter.optClause_mono hs.sub_hasOutgoingTransfer _ h4,
         MoneroTxFilter.optClause_mono hs.sub_hasIncomingTransfers _ h5,
         MoneroTxFilter.optClause_mono hs.sub_txIds _ h6,
         MoneroTxFilter.optClause_mono hs.sub_paymentIds _ h7,
         MoneroTxFilter.optClause_mono hs.sub_height _ h8,
         MoneroTxFilter.optClause_mono hs.sub_minHeight _ h9,
         MoneroTxFilter.optClause_mono hs.sub_maxHeight _ h10⟩

/-- C2 witness: the unconstrained filter subsumes into the concrete
`minHeight = 1` filter; the candidate at height 5 meeting the latter meets
the former. -/
theorem claim_C2_monotonicity_witness :
    MoneroTxFilter.meetsCriteria ({} : MoneroTxFilter Nat)
      { block := some { header := some { height := some 5 } } } = true :=
  claim_C2_monotonicity {} { minHeight := some 1 }
    (by constructor <;> exact fun v hv => Option.noConfusion hv)
    { block := some { header := some { height := some 5 } } } (by decide)

/-- C7: a malformed filter state — a non-Entity value where an Entity is
required — makes filter construction fail fast with `InvalidFilterState`,
while every well-formed state constructs successfully; evaluation
(`meetsCriteria`, a total function on constructed filters) never fails for
filter state, so a bad filter cannot silently pass everything. -/
theorem claim_C7_invalidFilterState {T : Type} (s : RawFilterState T) :
    (rawFilterStateMalformed s →
      mkMoneroTxFilter s = Except.error FilterError.invalidFilterState) ∧
    (¬ rawFilterStateMalformed s → (mkMoneroTxFilter s).isOk = true) := by
  constructor
  · intro hm
    rcases hm with hm | hm
    · rcases htf : s.transferFilter with _ | tfraw
      · simp [mkMoneroTxFilter, htf, hm, newMoneroTxWallet]
      · rcases tfraw with p | p | _ <;>
          simp [mkMoneroTxFilter, htf, hm, newMoneroTxWallet, newMoneroTransferFilter]
    · simp [mkMoneroTxFilter, hm, newMoneroTransferFilter]
  · intro hm
    obtain ⟨h1, h2⟩ := not_or.mp hm
    rcases htf : s.transferFilter with _ | tfraw
    · rcases htx : s.tx with _ | txraw
      · simp [mkMoneroTxFilter, htf, htx, Except.isOk, Except.toBool]
      · rcases txraw with t | t | _
        · simp [mkMoneroTxFilter, htf, htx, newMoneroTxWallet, Except.isOk, Except.toBool]
        · simp [mkMoneroTxFilter, htf, htx, newMoneroTxWallet, Except.isOk, Except.toBool]
        · exact absurd htx h1
    · rcases tfraw with p | p | _
      · rcases htx : s.tx with _ | txraw
        · simp [mkMoneroTxFilter, htf, htx, newMoneroTransferFilter, Except.isOk, Except.toBool]
        · rcases txraw with t | t | _
          · simp [mkMoneroTxFilter, htf, htx, newMoneroTxWallet,
              newMoneroTransferFilter, Except.isOk, Except.toBool]
          · simp [mkMoneroTxFilter, htf, htx, newMoneroTxWallet,
              newMoneroTransferFilter, Except.isOk, Except.toBool]
          · exact absurd htx h1
      · rcases htx : s.tx with _ | txraw
        · simp [mkMoneroTxFilter, htf, htx, newMoneroTransferFilter, Except.isOk, Except.toBool]
        · rcases txraw with t | t | _
          · simp [mkMoneroTxFilter, htf, htx, newMoneroTxWallet,
              newMoneroTransferFilter, Except.isOk, Except.toBool]
          · simp [mkMoneroTxFilter, htf, htx, newMoneroTxWallet,
              newMoneroTransferFilter, Except.isOk, Except.toBool]
          · exact absurd htx h1
      · exact absurd htf h2

/-- C7 witness: the concrete malformed state (a non-Entity in the `tx` slot)
fails with `InvalidFilterState`; the concrete well-formed `height = 3` state
constructs. -/
theorem claim_C7_invalidFilterState_witness :
    mkMoneroTxFilter ({ tx := some RawTxState.malformed } : RawFilterState Nat) =
      Except.error FilterError.invalidFilterState ∧
    (mkMoneroTxFilter ({ height := some 3 } : RawFilterState Nat)).isOk = true :=
  ⟨(claim_C7_invalidFilterState _).1 (Or.inl rfl),
   (claim_C7_invalidFilterState _).2 (by simp [rawFilterStateMalformed])⟩

/-- C8: with the provider (WASM) module not loaded, each provider-boundary
operation fails with `ProviderUnavailable`, surfaced to the caller rather
than a null-reference fault: `validateAddress` whenever its local input
assertions pass, and `jsonToBinary`, `binaryToJson`, `binaryBlocksToJson`
unconditionally. -/
theorem claim_C8_providerUnavailable {J : Type} (stringify : J → String)
    (parse : String → J) (parseRaw : String → RawBlocksJson) :
    (∀ (address : String) (networkType : Option Nat),
       address.length ≠ 0 → isBase58 address = true →
       networkTypeValid networkType = true →
       MoneroUtils.validateAddress none address networkType =
         Except.error MErr.providerUnavailable) ∧
    (∀ json : J, MoneroUtils.jsonToBinary stringify none json =
       Except.error MErr.providerUnavailable) ∧
    (∀ bytes : List Nat, MoneroUtils.binaryToJson parse none bytes =
       Except.error MErr.providerUnavailable) ∧
    (∀ bytes : List Nat, MoneroUtils.binaryBlocksToJson parseRaw parse none bytes =
       Except.error MErr.providerUnavailable) := by
  refine ⟨?_, fun _ => rfl, fun _ => rfl, fun _ => rfl⟩
  intro a nt h1 h2 h3
  rw [MoneroUtils.validateAddress, if_neg h1, if_neg (not_not_intro h2),
    if_neg (not_not_intro h3)]

/-- C8 witness: `claim_C8_providerUnavailable` at the concrete base-58
address "42" on mainnet (network type 0), and at concrete codec inputs. -/
theorem claim_C8_providerUnavailable_witness :
    MoneroUtils.validateAddress none "42" (some 0) =
      Except.error MErr.providerUnavailable ∧
    MoneroUtils.jsonToBinary (fun s : String => s) none "x" =
      Except.error MErr.providerUnavailable ∧
    MoneroUtils.binaryToJson (fun s : String => s) none [0, 1] =
      Except.error MErr.providerUnavailable ∧
    MoneroUtils.binaryBlocksToJson (fun _ => ⟨[], []⟩) (fun s : String => s) none [] =
      Except.error MErr.providerUnavailable :=
  ⟨(claim_C8_providerUnavailable (fun s : String => s) (fun s => s) (fun _ => ⟨[], []⟩)).1
     "42" (some 0) (by decide) (by decide) (by decide),
   (claim_C8_providerUnavailable (fun s : String => s) (fun s => s) (fun _ => ⟨[], []⟩)).2.1 "x",
   (claim_C8_providerUnavailable (fun s : String => s) (fun s => s) (fun _ => ⟨[], []⟩)).2.2.1
     [0, 1],
   (claim_C8_providerUnavailable (fun s : String => s) (fun s => s) (fun _ => ⟨[], []⟩)).2.2.2 []⟩

namespace MoneroUtils

theorem replaceFirstComma_of_not_mem (s : List Char) (h : ',' ∉ s) :
    replaceFirstComma s = s := by
  induction s with
  | nil => rfl
  | cons c rest ih =>
    rw [replaceFirstComma]
    rw [if_neg (by rintro rfl; exact h (List.mem_cons_self _ _))]
    rw [ih fun hr => h (List.mem_cons_of_mem c hr)]

theorem replaceFirstComma_first (pre post : List Char) (h : ',' ∉ pre) :
    replaceFirstComma (pre ++ ',' :: post) = pre ++ '{' :: post := by
  induction pre with
  | nil => simp [replaceFirstComma]
  | cons c pre' ih =>
    rw [List.cons_append, replaceFirstComma]
    rw [if_neg (by rintro rfl; exact h (List.mem_cons_self _ _))]
    rw [List.cons_append]
    exact congrArg (c :: ·) (ih fun hr => h (List.mem_cons_of_mem c hr))

end MoneroUtils

/-- C9: `binaryBlocksToJson`'s post-processing yields uniformly structured
records: every block string is parsed as-is; every transaction string is
self-healed — its first `','` (the known offset) is replaced by the missing
opening `'{'` and a closing `'}'` appended — before parsing; a block whose
transaction list is absent yields the empty sequence. -/
theorem claim_C9_binaryBlocksToJson {J : Type} (parse : String → J)
    (raw : RawBlocksJson) :
    ((MoneroUtils.blocksJsonPostProcess parse raw).blocks = raw.blocks.map parse) ∧
    ((MoneroUtils.blocksJsonPostProcess parse raw).txs.length = raw.txs.length) ∧
    (∀ i : Nat,
       (raw.txs.get? i = some none →
         (MoneroUtils.blocksJsonPostProcess parse raw).txs.get? i = some []) ∧
       (∀ l, raw.txs.get? i = some (some l) →
         (MoneroUtils.blocksJsonPostProcess parse raw).txs.get? i =
           some (l.map fun tx => parse (MoneroUtils.healTxString tx)))) ∧
    (∀ s : List Char, ',' ∉ s → MoneroUtils.replaceFirstComma s = s) ∧
    (∀ pre post : List Char, ',' ∉ pre →
       MoneroUtils.replaceFirstComma (pre ++ ',' :: post) = pre ++ '{' :: post) := by
  refine ⟨rfl, by simp [MoneroUtils.blocksJsonPostProcess], ?_,
    MoneroUtils.replaceFirstComma_of_not_mem, MoneroUtils.replaceFirstComma_first⟩
  intro i
  constructor
  · intro h
    rw [MoneroUtils.blocksJsonPostProcess]
    simp only [List.get?_eq_getElem?, List.getElem?_map, h]
    simp only [List.get?_eq_getElem?] at h
    rw [h]
    rfl
  · intro l h
    rw [MoneroUtils.blocksJsonPostProcess]
    simp only [List.get?_eq_getElem?, List.getElem?_map]
    simp only [List.get?_eq_getElem?] at h
    rw [h]
    rfl

/-- C9 witness: `claim_C9_binaryBlocksToJson` at a concrete raw response —
the absent transaction list becomes `[]` and the brace-healed transaction
string parses (here with the identity "parser"). -/
theorem claim_C9_binaryBlocksToJson_witness :
    (MoneroUtils.blocksJsonPostProcess (fun s => s)
       ⟨["blk"], [none, some ["ab,cd"]]⟩).txs.get? 0 = some [] ∧
    (MoneroUtils.blocksJsonPostProcess (fun s => s)
       ⟨["blk"], [none, some ["ab,cd"]]⟩).txs.get? 1 = some ["ab{cd}"] :=
  ⟨((claim_C9_binaryBlocksToJson (fun s => s) ⟨["blk"], [none, some ["ab,cd"]]⟩).2.2.1 0).1
     rfl,
   (((claim_C9_binaryBlocksToJson (fun s => s) ⟨["blk"], [none, some ["ab,cd"]]⟩).2.2.1 1).2
     ["ab,cd"] rfl).trans (by decide)⟩

/-- C10: the network-type argument has no influence on `isValidAddress`: for
any two network types the results agree, because `validateAddress` is invoked
with the address only (network type `undefined`); the result is `true` iff
that call does not throw. -/
theorem claim_C10_networkTypeIgnored :
    (∀ (wasm : Option WasmModule) (address : String) (nt1 nt2 : Option Nat),
       MoneroUtils.isValidAddress wasm address nt1 =
         MoneroUtils.isValidAddress wasm address nt2) ∧
    (∀ (wasm : Option WasmModule) (address : String) (nt : Option Nat),
       MoneroUtils.isValidAddress wasm address nt = true ↔
         MoneroUtils.validateAddress wasm address none = Except.ok ()) := by
  refine ⟨fun _ _ _ _ => rfl, fun wasm a nt => ?_⟩
  rw [MoneroUtils.isValidAddress]
  cases h : MoneroUtils.validateAddress wasm a none with
  | ok u => cases u; simp
  | error e => simp
